import Mathlib

/-!
# pomoqt: the PomoLite store handle and the PomoResult envelope

A shallow embedding of `src/pomolite/pomoresult.h` and `src/pomolite/pomolite.cc`.

* `PomoResult T` embeds the class template `PomoResult<T>`.
* `PomoLite` embeds the data members of the class `PomoLite`; member functions that
  write `mutable` members return the updated handle next to their result.
* The SQLite engine is an external library. A `Store` gives, for the statements already
  executed on a connection and the statement executed now, the rows the engine delivers
  to the row callback and the return code of the call. `sqlite3_exec` embeds the
  documented behaviour of the library call on top of such a store.
-/

namespace PomoQt

/-! ## pomoresult.h -/

/-- The enum class `PomoResultCode`. -/
inductive PomoResultCode where
  | SUCCESS
  | FAIL
  deriving DecidableEq, Repr

/-- The class `PomoResultException`; `msg_` is the text returned by `what()`. -/
structure PomoResultException where
  msg_ : String
  deriving DecidableEq, Repr

/-- The class template `PomoResult<T>`. An object is built by one of its constructors and
never changes afterwards: `default` is `PomoResult()`, which sets `code_` to `FAIL` and gives
`value_` no value; `withValue code value` is `PomoResult(code, value)`. -/
inductive PomoResult (T : Type) where
  | default : PomoResult T
  | withValue (code : PomoResultCode) (value : T) : PomoResult T
  deriving DecidableEq, Repr

/-- The member `code()`: returns `code_`. -/
def PomoResult.code {T : Type} : PomoResult T → PomoResultCode
  | .default => PomoResultCode.FAIL
  | .withValue code _ => code

/-- The member `successful()`: `code_ == PomoResultCode::SUCCESS`. -/
def PomoResult.successful {T : Type} (r : PomoResult T) : Bool :=
  r.code == PomoResultCode.SUCCESS

/-- The member `value()`: throws when the result is not successful, else returns `value_`.
The last branch is never reached: a default-constructed result is not successful. -/
def PomoResult.value {T : Type} (r : PomoResult T) : Except PomoResultException T :=
  if !r.successful then
    Except.error ⟨"Cannot access value of failed query."⟩
  else
    match r with
    | .withValue _ value => Except.ok value
    | .default => Except.error ⟨"Cannot access value of failed query."⟩

/-! ## The SQLite engine -/

/-- Result code `SQLITE_OK` of sqlite3.h. -/
def SQLITE_OK : Int := 0

/-- Result code `SQLITE_ERROR` of sqlite3.h. -/
def SQLITE_ERROR : Int := 1

/-- Constant `SQLITE_FAIL` of sqlite3.h. -/
def SQLITE_FAIL : Int := 3

/-- Result code `SQLITE_ABORT` of sqlite3.h. -/
def SQLITE_ABORT : Int := 4

/-- Result code `SQLITE_CONSTRAINT` of sqlite3.h. -/
def SQLITE_CONSTRAINT : Int := 19

/-- One result row as handed to a row callback: the parallel arrays `col_names` and
`values`, entry by entry as (column name, value text); `count` is the length. -/
abbrev Row := List (String × String)

/-- What the engine does with one statement: the rows it produces, in order, and the
return code of the call when no callback stops it. -/
structure Response where
  rows : List Row
  rc : Int
  deriving DecidableEq, Repr

/-- A store: its response to a statement, given the statements executed before it. -/
abbrev Store := List String → String → Response

/-- The connection `sqlite3*`: the store behind it and the statements executed so far. -/
structure Connection where
  store : Store
  history : List String

/-- Hands the rows to the callback in order; stops at the first non-zero return.
Returns whether a callback stopped the run, and the callback argument afterwards. -/
def deliver {α : Type} (cb : α → Row → Int × α) : α → List Row → Bool × α
  | arg, [] => (false, arg)
  | arg, row :: rest =>
    let (r, arg1) := cb arg row
    if r != 0 then (true, arg1) else deliver cb arg1 rest

/-- The library call `sqlite3_exec(db, sql, callback, arg, &errmsg)`: runs the statement,
invokes the callback once per result row, and returns `SQLITE_ABORT` when a callback
returns non-zero. Returns the code, the callback argument and the connection afterwards. -/
def sqlite3_exec {α : Type} (db : Connection) (sql : String)
    (cb : α → Row → Int × α) (arg : α) : Int × α × Connection :=
  let resp := db.store db.history sql
  let (aborted, arg1) := deliver cb arg resp.rows
  (if aborted then SQLITE_ABORT else resp.rc, arg1,
    { db with history := db.history ++ [sql] })

/-! ## The C++ standard library -/

/-- Lower bound of `int`. -/
def INT_MIN : Int := -2147483648

/-- Upper bound of `int`. -/
def INT_MAX : Int := 2147483647

/-- The classification `isspace` of the C locale. -/
def isspace (c : Char) : Bool :=
  c == ' ' || (9 ≤ c.toNat && c.toNat ≤ 13)

/-- The function `std::stoi(str)` in base 10: skips leading white space, reads an optional
sign and the longest run of digits; `none` stands for the exception thrown when there is
no digit (`std::invalid_argument`) or the number does not fit an `int`
(`std::out_of_range`). -/
def stoi (str : String) : Option Int :=
  let cs := str.data.dropWhile isspace
  let (neg, cs) :=
    match cs with
    | '-' :: rest => (true, rest)
    | '+' :: rest => (false, rest)
    | _ => (false, cs)
  let ds := cs.takeWhile Char.isDigit
  if ds.isEmpty then none
  else
    let n : Int := ds.foldl (fun acc c => 10 * acc + ((c.toNat : Int) - 48)) 0
    let v := if neg then -n else n
    if v < INT_MIN || INT_MAX < v then none else some v

/-- The function `std::to_string(int)`: the decimal text. -/
def to_string (n : Int) : String :=
  if n < 0 then "-" ++ Nat.repr n.natAbs else Nat.repr n.natAbs

/-! ## pomolite.h / pomolite.cc -/

/-- The enum class `PomoLite::ReportType`. -/
inductive ReportType where
  | NONE
  | INFO
  | WARNING
  | ERROR
  deriving DecidableEq, Repr

/-- The constant `PomoLite::CURRENT_VERSION`. -/
def CURRENT_VERSION : Int := 1

/-- The constant `PomoLite::VERSION_FAIL`. -/
def VERSION_FAIL : Int := -1

/-- The constant `PomoLite::TABLE_INFO`. -/
def TABLE_INFO : String := "db_info"

/-- The constant `PomoLite::TABLE_ACTIVITY_TYPE`. -/
def TABLE_ACTIVITY_TYPE : String := "activity_type"

/-- The constant `PomoLite::TABLE_SESSION`. -/
def TABLE_SESSION : String := "session"

/-- The constant `PomoLite::TABLE_USER`. -/
def TABLE_USER : String := "user"

/-- The constant `PomoLite::COLS_INFO`. -/
def COLS_INFO : String :=
  "property TEXT NOT NULL UNIQUE PRIMARY KEY," ++
  "value TEXT NOT NULL"

/-- The constant `PomoLite::COLS_ACTIVITY_TYPE`. -/
def COLS_ACTIVITY_TYPE : String :=
  "id INTEGER NOT NULL PRIMARY KEY ASC AUTOINCREMENT," ++
  "short_name TEXT NOT NULL UNIQUE," ++
  "full_name TEXT NOT NULL," ++
  "description TEXT"

/-- The constant `PomoLite::COLS_SESSION`. -/
def COLS_SESSION : String :=
  "id INTEGER NOT NULL PRIMARY KEY ASC AUTOINCREMENT," ++
  "user_id INTEGER NOT NULL," ++
  "activity_type_id INTEGER NOT NULL," ++
  "start_time DATETIME NOT NULL," ++
  "end_time DATETIME NOT NULL," ++
  "rating INTEGER," ++
  "FOREIGN KEY(user_id) REFERENCES user(id)," ++
  "FOREIGN KEY(activity_type_id) REFERENCES activity_type(id)"

/-- The constant `PomoLite::COLS_USER`. -/
def COLS_USER : String :=
  "id INTEGER NOT NULL PRIMARY KEY ASC AUTOINCREMENT," ++
  "full_name TEXT NOT NULL UNIQUE"

/-- The data members of the class `PomoLite`. -/
structure PomoLite where
  filename_ : String
  message_ : String
  report_type_ : ReportType
  opened_ : Bool
  db_ : Connection
  rc_ : Int
  version_ : Int

/-- The member `opened()`. -/
def PomoLite.opened (self : PomoLite) : Bool :=
  self.opened_

/-- The member `filename()`. -/
def PomoLite.filename (self : PomoLite) : String :=
  self.filename_

/-- The member `message()`. -/
def PomoLite.message (self : PomoLite) : String :=
  self.message_

/-- The member `message_type()`. -/
def PomoLite.message_type (self : PomoLite) : ReportType :=
  self.report_type_

/-- The member `check_rc()`: `rc_ == SQLITE_OK`. -/
def PomoLite.check_rc (self : PomoLite) : Bool :=
  self.rc_ == SQLITE_OK

/-- The member `successful(code)`. -/
def PomoLite.successful (_self : PomoLite) (code : PomoResultCode) : Bool :=
  code == PomoResultCode.SUCCESS

/-- The member `report(msg, type)`. -/
def PomoLite.report (self : PomoLite) (msg : String) (type : ReportType) : PomoLite :=
  { self with message_ := msg, report_type_ := type }

/-- The member `report_error(msg)`. -/
def PomoLite.report_error (self : PomoLite) (msg : String) : PomoLite :=
  self.report msg ReportType.ERROR

/-- The member `report_warning(msg)`. -/
def PomoLite.report_warning (self : PomoLite) (msg : String) : PomoLite :=
  self.report msg ReportType.ERROR

/-- The member `report_info(msg)`. -/
def PomoLite.report_info (self : PomoLite) (msg : String) : PomoLite :=
  self.report msg ReportType.INFO

/-- The constructor `PomoLite(filename)`. The library call `sqlite3_open` is a parameter:
for a file name it gives the return code and the connection. The member initialisers of
the class give the other members their first values. -/
def PomoLite.new (sqlite3_open : String → Int × Connection) (filename : String) : PomoLite :=
  let (rc, db) := sqlite3_open filename
  let self : PomoLite :=
    { filename_ := filename, message_ := "", report_type_ := ReportType.NONE,
      opened_ := false, db_ := db, rc_ := rc, version_ := VERSION_FAIL }
  if self.check_rc then
    let self := self.report_info ("Opened database at \"" ++ filename ++ "\".")
    { self with opened_ := true }
  else
    self.report_error ("Failed to open database at \"" ++ filename ++ "\".")

/-- The callback `cb_do_nothing`. -/
def cb_do_nothing (arg : Unit) (_row : Row) : Int × Unit :=
  (SQLITE_OK, arg)

/-- The loop of `cb_version` over the columns, from the column at hand on. -/
def cb_version_loop (version : Int) : Row → Int × Int
  | [] => (SQLITE_FAIL, version)
  | (col_name, value) :: rest =>
    if col_name == "version" then
      match stoi value with
      | some n => (SQLITE_OK, n)
      | none => (SQLITE_FAIL, VERSION_FAIL)
    else
      cb_version_loop version rest

/-- The callback `cb_version(version, count, values, col_names)`: the first component is
the return value, the second is `*version_ptr` afterwards. -/
def cb_version (version : Int) (row : Row) : Int × Int :=
  if row.length == 0 then
    (SQLITE_FAIL, VERSION_FAIL)
  else
    cb_version_loop version row

/-- The statement `stm_check_table` of `version()`. -/
def stm_check_table : String :=
  "SELECT value FROM " ++ TABLE_INFO ++ " WHERE property = 'version'"

/-- The member `version()`: the result and the handle afterwards (`rc_` and `version_`
are `mutable`). -/
def PomoLite.version (self : PomoLite) : PomoResult Int × PomoLite :=
  if !self.opened_ then
    (PomoResult.default, self)
  else
    let (rc, version, db) := sqlite3_exec self.db_ stm_check_table cb_version self.version_
    let self := { self with rc_ := rc, version_ := version, db_ := db }
    if self.version_ == VERSION_FAIL then
      (PomoResult.default, self)
    else
      (PomoResult.withValue PomoResultCode.SUCCESS self.version_, self)

/-- The vector `tables` of the bootstrap: table name and column text, in order. -/
def tables : List (String × String) :=
  [ (TABLE_INFO, COLS_INFO),
    (TABLE_ACTIVITY_TYPE, COLS_ACTIVITY_TYPE),
    (TABLE_USER, COLS_USER),
    (TABLE_SESSION, COLS_SESSION) ]

/-- The statement `stm_create_info_table` for one entry of `tables`. -/
def stm_create_info_table (table : String × String) : String :=
  "CREATE TABLE " ++ table.1 ++ "(" ++ table.2 ++ ");"

/-- The statement `stm_add_version`. -/
def stm_add_version : String :=
  "INSERT INTO " ++ TABLE_INFO ++ "(property, value) VALUES" ++
  "('version', '" ++ to_string CURRENT_VERSION ++ "');"

/-- The statement `stm_add_activities`. -/
def stm_add_activities : String :=
  "INSERT INTO " ++ TABLE_ACTIVITY_TYPE ++ "(short_name, full_name, description) VALUES" ++
  "('work', 'Pomodoro', 'Productive work')," ++
  "('short_break', 'Short Break', 'Short break between working bursts')," ++
  "('long_break', 'Long Break', 'Take a breather!');"

/-- One pass of the loop `for (const auto& table : tables)`, on the local `failed` and
the handle. -/
def create_table (st : Bool × PomoLite) (table : String × String) : Bool × PomoLite :=
  let (failed, self) := st
  let (rc, _, db) := sqlite3_exec self.db_ (stm_create_info_table table) cb_do_nothing ()
  let self := { self with rc_ := rc, db_ := db }
  if !self.check_rc then
    (true, self.report_error ("Creation of table \"" ++ table.1 ++ "\" failed."))
  else
    (failed, self)

/-- The block "Add version entry". -/
def add_version (st : Bool × PomoLite) : Bool × PomoLite :=
  let (failed, self) := st
  let (rc, _, db) := sqlite3_exec self.db_ stm_add_version cb_do_nothing ()
  let self := { self with rc_ := rc, db_ := db }
  if !self.check_rc then
    (true, self.report_error "Failed to set version number.")
  else
    (failed, self)

/-- The block "Add default activity types". -/
def add_activities (st : Bool × PomoLite) : Bool × PomoLite :=
  let (failed, self) := st
  let (rc, _, db) := sqlite3_exec self.db_ stm_add_activities cb_do_nothing ()
  let self := { self with rc_ := rc, db_ := db }
  if !self.check_rc then
    (true, self.report_error "Failed to add default activities.")
  else
    (failed, self)

/-- The member `initialize()`: the result code and the handle afterwards. -/
def PomoLite.initialize (self : PomoLite) : PomoResultCode × PomoLite :=
  if !self.opened_ then
    (PomoResultCode.FAIL, self.report_error "No database opened.")
  else
    let (result, self) := self.version
    if result.successful && self.version_ == CURRENT_VERSION then
      (PomoResultCode.SUCCESS, self)
    else
      let (failed, self) :=
        if self.version_ == VERSION_FAIL then
          add_activities (add_version (tables.foldl create_table (false, self)))
        else
          (false, self)
      if failed then
        (PomoResultCode.FAIL, self)
      else
        (PomoResultCode.SUCCESS, self)

/-! ## Specification vocabulary -/

/-- The six statements of the bootstrap, in the order `initialize()` executes them. -/
def bootstrap_statements : List String :=
  tables.map stm_create_info_table ++ [stm_add_version, stm_add_activities]

/-- The return codes a store gives to a list of statements executed one after the other,
starting after the statements `hist`. -/
def run_rcs (store : Store) : List String → List String → List Int
  | _, [] => []
  | hist, stmt :: rest => (store hist stmt).rc :: run_rcs store (hist ++ [stmt]) rest

/-- The text `msg` contains the text `name`. -/
def contains_text (msg name : String) : Prop :=
  name.data <:+: msg.data

/-- The return code the store gives to the `k`-th bootstrap statement (counted from 0)
when `initialize()` runs the bootstrap on the handle `h`, that is after the version
query. -/
def bootstrap_rc (h : PomoLite) (k : Nat) : Int :=
  (run_rcs h.db_.store (h.db_.history ++ [stm_check_table]) bootstrap_statements).getD k SQLITE_OK

/-! ## The bootstrap as a run of uniform steps (used by the proofs) -/

/-- One step of the bootstrap, the shape the source repeats for every statement: execute
`p.1` with `cb_do_nothing`, store the code in `rc_`, and when `check_rc()` fails set
`failed` and report the error text `p.2`. -/
def exec_step (st : Bool × PomoLite) (p : String × String) : Bool × PomoLite :=
  if (st.2.db_.store st.2.db_.history p.1).rc = SQLITE_OK then
    (st.1, { st.2 with
      rc_ := (st.2.db_.store st.2.db_.history p.1).rc,
      db_ := { st.2.db_ with history := st.2.db_.history ++ [p.1] } })
  else
    (true, { st.2 with
      rc_ := (st.2.db_.store st.2.db_.history p.1).rc,
      db_ := { st.2.db_ with history := st.2.db_.history ++ [p.1] },
      message_ := p.2,
      report_type_ := ReportType.ERROR })

/-- The bootstrap as a list of (statement, error text of its failure), in order. -/
def bootstrap_script : List (String × String) :=
  tables.map (fun t => (stm_create_info_table t, "Creation of table \"" ++ t.1 ++ "\" failed."))
    ++ [(stm_add_version, "Failed to set version number."),
        (stm_add_activities, "Failed to add default activities.")]

/-- The diagnostic left by a run of steps, from the return codes of the statements and the
error texts of their failures: that of the last failing statement, or the diagnostic `cur`
from before the run when none fails. -/
def last_report : List Int → List String → String × ReportType → String × ReportType
  | rc :: rcs, msg :: msgs, cur =>
    last_report rcs msgs (if rc = SQLITE_OK then cur else (msg, ReportType.ERROR))
  | _, _, cur => cur

/-! ## Concrete stores -/

/-- A store behind a file that does not exist yet. The version query fails while `db_info`
is missing, finds no row until the version row is inserted, and afterwards yields one row
with the single column `value` holding "1". Every other statement succeeds the first
time and is rejected when repeated (the table exists, the unique key is taken). -/
def sim_store : Store := fun hist stmt =>
  if stmt = stm_check_table then
    if stm_create_info_table (TABLE_INFO, COLS_INFO) ∈ hist then
      if stm_add_version ∈ hist then ⟨[[("value", "1")]], SQLITE_OK⟩ else ⟨[], SQLITE_OK⟩
    else ⟨[], SQLITE_ERROR⟩
  else if stmt ∈ hist then
    ⟨[], if stmt = stm_add_version ∨ stmt = stm_add_activities then SQLITE_CONSTRAINT
         else SQLITE_ERROR⟩
  else ⟨[], SQLITE_OK⟩

/-- Opening any path succeeds and connects to a new `sim_store`. -/
def sim_open : String → Int × Connection :=
  fun _ => (SQLITE_OK, ⟨sim_store, []⟩)

/-- The handle on a new `sim_store`. -/
def sim_handle : PomoLite :=
  PomoLite.new sim_open "/tmp/test.db"

/-- A store behind a file that already has a table `db_info` of another layout, without a
column `value`: the version query, `CREATE TABLE db_info` and the version insert fail,
every other statement succeeds. -/
def legacy_store : Store := fun _ stmt =>
  if stmt = stm_check_table ∨ stmt = stm_create_info_table (TABLE_INFO, COLS_INFO) ∨
      stmt = stm_add_version then
    ⟨[], SQLITE_ERROR⟩
  else ⟨[], SQLITE_OK⟩

/-- The handle on a `legacy_store`, opened with success. -/
def legacy_handle : PomoLite :=
  PomoLite.new (fun _ => (SQLITE_OK, ⟨legacy_store, []⟩)) "/tmp/test.db"

/-- A store whose version query yields one row with the single column `value` holding the
decimal text of `n`; every statement succeeds. -/
def versioned_store (n : Int) : Store := fun _ stmt =>
  if stmt = stm_check_table then ⟨[[("value", to_string n)]], SQLITE_OK⟩ else ⟨[], SQLITE_OK⟩

/-- The handle on a `versioned_store n`, opened with success. -/
def versioned_handle (n : Int) : PomoLite :=
  PomoLite.new (fun _ => (SQLITE_OK, ⟨versioned_store n, []⟩)) "/tmp/test.db"

/-- A store behind a file that holds the table `user` and nothing else: the version query
and `CREATE TABLE user` fail, every other statement succeeds. -/
def user_only_store : Store := fun _ stmt =>
  if stmt = stm_check_table ∨ stmt = stm_create_info_table (TABLE_USER, COLS_USER) then
    ⟨[], SQLITE_ERROR⟩
  else ⟨[], SQLITE_OK⟩

/-- The handle on a `user_only_store`, opened with success. -/
def user_only_handle : PomoLite :=
  PomoLite.new (fun _ => (SQLITE_OK, ⟨user_only_store, []⟩)) "/tmp/test.db"

/-- Opening any path fails. -/
def failing_open : String → Int × Connection :=
  fun _ => (14, ⟨sim_store, []⟩)

/-! ## Lemmas on the embedding -/

theorem deliver_do_nothing (rows : List Row) : deliver cb_do_nothing () rows = (false, ()) := by
  induction rows with
  | nil => rfl
  | cons row rest ih => simp [deliver, cb_do_nothing, SQLITE_OK, ih]

theorem sqlite3_exec_do_nothing (db : Connection) (sql : String) :
    sqlite3_exec db sql cb_do_nothing () =
      ((db.store db.history sql).rc, (), { db with history := db.history ++ [sql] }) := by
  simp [sqlite3_exec, deliver_do_nothing]

theorem sqlite3_exec_connection {α : Type} (db : Connection) (sql : String)
    (cb : α → Row → Int × α) (arg : α) :
    (sqlite3_exec db sql cb arg).2.2 = { db with history := db.history ++ [sql] } := by
  simp [sqlite3_exec]

theorem version_opened (h : PomoLite) (ho : h.opened_ = true) :
    PomoLite.version h =
      (if (sqlite3_exec h.db_ stm_check_table cb_version h.version_).2.1 = VERSION_FAIL then
          PomoResult.default
        else
          PomoResult.withValue PomoResultCode.SUCCESS
            (sqlite3_exec h.db_ stm_check_table cb_version h.version_).2.1,
        { h with
          rc_ := (sqlite3_exec h.db_ stm_check_table cb_version h.version_).1,
          version_ := (sqlite3_exec h.db_ stm_check_table cb_version h.version_).2.1,
          db_ := { h.db_ with history := h.db_.history ++ [stm_check_table] } }) := by
  simp only [PomoLite.version, ho, ← sqlite3_exec_connection h.db_ stm_check_table cb_version h.version_]
  split_ifs <;> simp_all

theorem initialize_opened (h : PomoLite) (ho : h.opened_ = true) :
    PomoLite.initialize h =
      if (PomoLite.version h).2.version_ = VERSION_FAIL then
        ((if (add_activities (add_version
              (tables.foldl create_table (false, (PomoLite.version h).2)))).1 = true
          then PomoResultCode.FAIL else PomoResultCode.SUCCESS),
         (add_activities (add_version
              (tables.foldl create_table (false, (PomoLite.version h).2)))).2)
      else
        (PomoResultCode.SUCCESS, (PomoLite.version h).2) := by
  rw [version_opened h ho]
  simp only [ PomoLite.initialize, ho, version_opened h ho]
  split_ifs <;> simp_all [PomoResult.successful, PomoResult.code, VERSION_FAIL, CURRENT_VERSION]

theorem create_table_eq (st : Bool × PomoLite) (table : String × String) :
    create_table st table =
      exec_step st (stm_create_info_table table, "Creation of table \"" ++ table.1 ++ "\" failed.") := by
  obtain ⟨failed, h⟩ := st
  simp only [create_table, exec_step, sqlite3_exec_do_nothing, PomoLite.check_rc,
    PomoLite.report_error, PomoLite.report]
  split_ifs <;> simp_all

theorem add_version_eq (st : Bool × PomoLite) :
    add_version st = exec_step st (stm_add_version, "Failed to set version number.") := by
  obtain ⟨failed, h⟩ := st
  simp only [add_version, exec_step, sqlite3_exec_do_nothing, PomoLite.check_rc,
    PomoLite.report_error, PomoLite.report]
  split_ifs <;> simp_all

theorem add_activities_eq (st : Bool × PomoLite) :
    add_activities st = exec_step st (stm_add_activities, "Failed to add default activities.") := by
  obtain ⟨failed, h⟩ := st
  simp only [add_activities, exec_step, sqlite3_exec_do_nothing, PomoLite.check_rc,
    PomoLite.report_error, PomoLite.report]
  split_ifs <;> simp_all

theorem bootstrap_eq_script (st : Bool × PomoLite) :
    add_activities (add_version (tables.foldl create_table st)) =
      bootstrap_script.foldl exec_step st := by
  simp [tables, bootstrap_script, create_table_eq, add_version_eq, add_activities_eq]

theorem script_db (script : List (String × String)) (st : Bool × PomoLite) :
    (script.foldl exec_step st).2.db_ =
      { st.2.db_ with history := st.2.db_.history ++ script.map Prod.fst } := by
  induction script generalizing st with
  | nil => simp
  | cons p rest ih =>
    rw [List.foldl_cons, ih]
    unfold exec_step
    split_ifs <;> simp

theorem script_frame (script : List (String × String)) (st : Bool × PomoLite) :
    (script.foldl exec_step st).2.opened_ = st.2.opened_ ∧
    (script.foldl exec_step st).2.version_ = st.2.version_ ∧
    (script.foldl exec_step st).2.filename_ = st.2.filename_ := by
  induction script generalizing st with
  | nil => simp
  | cons p rest ih =>
    rw [List.foldl_cons]
    refine ⟨(ih _).1.trans ?_, (ih _).2.1.trans ?_, (ih _).2.2.trans ?_⟩ <;>
      (unfold exec_step; split_ifs <;> rfl)

theorem script_failed (script : List (String × String)) (st : Bool × PomoLite) :
    (script.foldl exec_step st).1 =
      (st.1 || (run_rcs st.2.db_.store st.2.db_.history (script.map Prod.fst)).any
        (fun rc => rc != SQLITE_OK)) := by
  induction script generalizing st with
  | nil => simp [run_rcs]
  | cons p rest ih =>
    rw [List.foldl_cons, ih]
    unfold exec_step
    split_ifs with hrc <;> simp [run_rcs, hrc]

theorem script_report (script : List (String × String)) (st : Bool × PomoLite) :
    ((script.foldl exec_step st).2.message_, (script.foldl exec_step st).2.report_type_) =
      last_report (run_rcs st.2.db_.store st.2.db_.history (script.map Prod.fst))
        (script.map Prod.snd) (st.2.message_, st.2.report_type_) := by
  induction script generalizing st with
  | nil => simp [last_report, run_rcs]
  | cons p rest ih =>
    rw [List.foldl_cons, ih]
    unfold exec_step
    split_ifs with hrc <;> simp [last_report, run_rcs, hrc]

theorem bootstrap_script_statements : bootstrap_script.map Prod.fst = bootstrap_statements := by
  simp [bootstrap_script, bootstrap_statements, tables]


theorem version_frame (h : PomoLite) (ho : h.opened_ = true) :
    (PomoLite.version h).2.db_ =
      { h.db_ with history := h.db_.history ++ [stm_check_table] } ∧
    (PomoLite.version h).2.message_ = h.message_ ∧
    (PomoLite.version h).2.report_type_ = h.report_type_ ∧
    (PomoLite.version h).2.opened_ = h.opened_ ∧
    (PomoLite.version h).2.filename_ = h.filename_ := by
  rw [version_opened h ho]
  exact ⟨rfl, rfl, rfl, rfl, rfl⟩

/-- The run of `initialize()` on an open handle whose version is absent after the query:
the connection, the result code, the diagnostic and the untouched members afterwards. -/
theorem initialize_absent (h : PomoLite) (ho : h.opened_ = true)
    (habs : (PomoLite.version h).2.version_ = VERSION_FAIL) :
    ( PomoLite.initialize h).2.db_ =
      { h.db_ with history := h.db_.history ++ stm_check_table :: bootstrap_statements } ∧
    ( PomoLite.initialize h).1 =
      (if (run_rcs h.db_.store (h.db_.history ++ [stm_check_table]) bootstrap_statements).any
            (fun rc => rc != SQLITE_OK) = true
        then PomoResultCode.FAIL else PomoResultCode.SUCCESS) ∧
    (( PomoLite.initialize h).2.message_, ( PomoLite.initialize h).2.report_type_) =
      last_report (run_rcs h.db_.store (h.db_.history ++ [stm_check_table]) bootstrap_statements)
        (bootstrap_script.map Prod.snd) (h.message_, h.report_type_) ∧
    ( PomoLite.initialize h).2.opened_ = true ∧
    ( PomoLite.initialize h).2.version_ = VERSION_FAIL := by
  obtain ⟨hdb, hmsg, htype, hopen, -⟩ := version_frame h ho
  rw [initialize_opened h ho, if_pos habs, bootstrap_eq_script]
  refine ⟨?_, ?_, ?_, ?_, ?_⟩
  · simp [script_db, bootstrap_script_statements, hdb]
  · simp [script_failed, bootstrap_script_statements, hdb]
  · simp only [script_report, hdb, hmsg, htype, bootstrap_script_statements]
  · simp only [script_frame, hopen, ho]
  · simp only [script_frame, habs]

/-- The run of `initialize()` on an open handle whose version is present after the query. -/
theorem initialize_present (h : PomoLite) (ho : h.opened_ = true)
    (hv : (PomoLite.version h).2.version_ ≠ VERSION_FAIL) :
    PomoLite.initialize h = (PomoResultCode.SUCCESS, (PomoLite.version h).2) := by
  rw [initialize_opened h ho, if_neg hv]

theorem bootstrap_rc_fail_iff (h : PomoLite) :
    (run_rcs h.db_.store (h.db_.history ++ [stm_check_table]) bootstrap_statements).any
        (fun rc => rc != SQLITE_OK) = true ↔
      ∃ k, k < 6 ∧ bootstrap_rc h k ≠ SQLITE_OK := by
  simp only [bootstrap_rc, bootstrap_statements, tables, run_rcs, List.map, List.cons_append,
    List.nil_append, List.any_cons, List.any_nil, Bool.or_false, Bool.or_eq_true, bne_iff_ne]
  constructor
  · intro hx
    rcases hx with hx | hx | hx | hx | hx | hx
    · exact ⟨0, by norm_num, by simpa using hx⟩
    · exact ⟨1, by norm_num, by simpa using hx⟩
    · exact ⟨2, by norm_num, by simpa using hx⟩
    · exact ⟨3, by norm_num, by simpa using hx⟩
    · exact ⟨4, by norm_num, by simpa using hx⟩
    · exact ⟨5, by norm_num, by simpa using hx⟩
  · rintro ⟨k, hk, hx⟩
    interval_cases k
    · exact Or.inl (by simpa using hx)
    · exact Or.inr (Or.inl (by simpa using hx))
    · exact Or.inr (Or.inr (Or.inl (by simpa using hx)))
    · exact Or.inr (Or.inr (Or.inr (Or.inl (by simpa using hx))))
    · exact Or.inr (Or.inr (Or.inr (Or.inr (Or.inl (by simpa using hx)))))
    · exact Or.inr (Or.inr (Or.inr (Or.inr (Or.inr (by simpa using hx)))))

theorem last_report_no_failure (rcs : List Int) (msgs : List String)
    (cur : String × ReportType) (hok : rcs.any (fun rc => rc != SQLITE_OK) = false) :
    last_report rcs msgs cur = cur := by
  induction rcs generalizing msgs cur with
  | nil => simp [last_report]
  | cons rc rest ih =>
    simp only [List.any_cons, Bool.or_eq_false_iff, bne_eq_false_iff_eq] at hok
    cases msgs with
    | nil => simp [last_report]
    | cons msg msgs =>
      rw [last_report, if_pos hok.1]
      exact ih _ _ hok.2

theorem run_rcs_bootstrap (h : PomoLite) :
    run_rcs h.db_.store (h.db_.history ++ [stm_check_table]) bootstrap_statements =
      [bootstrap_rc h 0, bootstrap_rc h 1, bootstrap_rc h 2, bootstrap_rc h 3,
        bootstrap_rc h 4, bootstrap_rc h 5] := rfl

theorem new_opened (sqlite3_open : String → Int × Connection) (path : String)
    (hopen : (sqlite3_open path).1 = SQLITE_OK) :
    PomoLite.new sqlite3_open path =
      { filename_ := path, message_ := "Opened database at \"" ++ path ++ "\".",
        report_type_ := ReportType.INFO, opened_ := true, db_ := (sqlite3_open path).2,
        rc_ := (sqlite3_open path).1, version_ := VERSION_FAIL } := by
  simp [PomoLite.new, PomoLite.check_rc, PomoLite.report_info, PomoLite.report, hopen]

theorem new_failed (sqlite3_open : String → Int × Connection) (path : String)
    (hopen : (sqlite3_open path).1 ≠ SQLITE_OK) :
    PomoLite.new sqlite3_open path =
      { filename_ := path, message_ := "Failed to open database at \"" ++ path ++ "\".",
        report_type_ := ReportType.ERROR, opened_ := false, db_ := (sqlite3_open path).2,
        rc_ := (sqlite3_open path).1, version_ := VERSION_FAIL } := by
  simp [PomoLite.new, PomoLite.check_rc, PomoLite.report_error, PomoLite.report, hopen]

theorem version_no_row (h : PomoLite) (ho : h.opened_ = true)
    (hrow : (h.db_.store h.db_.history stm_check_table).rows = []) :
    (PomoLite.version h).2.version_ = h.version_ := by
  rw [version_opened h ho]
  simp [sqlite3_exec, hrow, deliver]

theorem version_value_row (h : PomoLite) (ho : h.opened_ = true) (v : String) (rc : Int)
    (hrow : h.db_.store h.db_.history stm_check_table = ⟨[[("value", v)]], rc⟩) :
    (PomoLite.version h).2.version_ = h.version_ ∧ (PomoLite.version h).2.rc_ = SQLITE_ABORT := by
  rw [version_opened h ho]
  simp [sqlite3_exec, hrow, deliver, cb_version, cb_version_loop, SQLITE_FAIL]

theorem bootstrap_script_texts :
    bootstrap_script.map Prod.snd =
      [ "Creation of table \"" ++ TABLE_INFO ++ "\" failed.",
        "Creation of table \"" ++ TABLE_ACTIVITY_TYPE ++ "\" failed.",
        "Creation of table \"" ++ TABLE_USER ++ "\" failed.",
        "Creation of table \"" ++ TABLE_SESSION ++ "\" failed.",
        "Failed to set version number.",
        "Failed to add default activities." ] := rfl

/-- The diagnostic after a bootstrap in which exactly the `i`-th `CREATE TABLE` fails. -/
theorem create_failure_report (h : PomoLite) (ho : h.opened_ = true)
    (habs : (PomoLite.version h).2.version_ = VERSION_FAIL) (i : Nat) (hi : i < 4)
    (hfail : ∀ k, k < 4 → (bootstrap_rc h k ≠ SQLITE_OK ↔ k = i)) :
    ( PomoLite.initialize h).1 = PomoResultCode.FAIL ∧
    ( PomoLite.initialize h).2.report_type_ = ReportType.ERROR ∧
    ( PomoLite.initialize h).2.message_ =
      if bootstrap_rc h 5 ≠ SQLITE_OK then "Failed to add default activities."
      else if bootstrap_rc h 4 ≠ SQLITE_OK then "Failed to set version number."
      else "Creation of table \"" ++ (tables.getD i ("", "")).1 ++ "\" failed." := by
  obtain ⟨-, hcode, hrep, -, -⟩ := initialize_absent h ho habs
  rw [run_rcs_bootstrap] at hcode hrep
  rw [bootstrap_script_texts] at hrep
  have hm : ( PomoLite.initialize h).2.message_ = _ := congrArg Prod.fst hrep
  have ht : ( PomoLite.initialize h).2.report_type_ = _ := congrArg Prod.snd hrep
  have h0 := hfail 0 (by norm_num)
  have h1 := hfail 1 (by norm_num)
  have h2 := hfail 2 (by norm_num)
  have h3 := hfail 3 (by norm_num)
  rw [hcode, hm, ht]
  interval_cases i <;> simp at h0 h1 h2 h3 <;>
    simp only [last_report, h0, h1, h2, h3, tables, List.getD_cons_zero, List.getD_cons_succ] <;>
    by_cases h4 : bootstrap_rc h 4 = SQLITE_OK <;>
    by_cases h5 : bootstrap_rc h 5 = SQLITE_OK <;>
    simp [h0, h1, h2, h3, h4, h5]

theorem contains_table_name (name : String) :
    contains_text ("Creation of table \"" ++ name ++ "\" failed.") name :=
  ⟨"Creation of table \"".data, "\" failed.".data, by simp [String.data_append]⟩

/-- The statements sent and the result code of `initialize()` on an open handle whose
version is absent after the query. -/
theorem bootstrap_outcome (h : PomoLite) (ho : h.opened_ = true)
    (habs : (PomoLite.version h).2.version_ = VERSION_FAIL) :
    ( PomoLite.initialize h).2.db_.history =
      h.db_.history ++ stm_check_table :: bootstrap_statements ∧
    (( PomoLite.initialize h).1 = PomoResultCode.FAIL ↔
      ∃ k, k < 6 ∧ bootstrap_rc h k ≠ SQLITE_OK) ∧
    (( PomoLite.initialize h).1 = PomoResultCode.SUCCESS ↔
      ∀ k, k < 6 → bootstrap_rc h k = SQLITE_OK) := by
  obtain ⟨hdb, hcode, -, -, -⟩ := initialize_absent h ho habs
  refine ⟨by rw [hdb], ?_, ?_⟩
  · rw [hcode, ← bootstrap_rc_fail_iff]
    split_ifs with hx <;> simp [hx]
  · rw [hcode]
    have hiff := bootstrap_rc_fail_iff h
    split_ifs with hx
    · obtain ⟨k, hk, hne⟩ := hiff.mp hx
      simp only [false_iff, not_forall, reduceCtorEq]
      exact ⟨k, hk, hne⟩
    · simp only [true_iff]
      intro k hk
      by_contra hne
      exact hx (hiff.mpr ⟨k, hk, hne⟩)

set_option maxRecDepth 100000

/-! ## Theorems -/

/-- C8: for every result `r`, `successful()` is true exactly when `code()` is `SUCCESS`;
`value()` of a result built from a code and a value returns that value when the code is
`SUCCESS` and raises `PomoResultException` otherwise (so also for code `FAIL` given
together with a value); `value()` raises on every result that is not successful; and a
default-constructed result has code `FAIL` (and `value()` raises on it). -/
theorem PomoResult_access_contract {T : Type} :
    (∀ r : PomoResult T, r.successful = true ↔ r.code = PomoResultCode.SUCCESS) ∧
    (∀ (code : PomoResultCode) (v : T), (PomoResult.withValue code v).code = code) ∧
    (∀ (code : PomoResultCode) (v : T),
      (PomoResult.withValue code v).value =
        if code = PomoResultCode.SUCCESS then Except.ok v
        else Except.error ⟨"Cannot access value of failed query."⟩) ∧
    (∀ v : T, (PomoResult.withValue PomoResultCode.FAIL v).value =
        Except.error ⟨"Cannot access value of failed query."⟩) ∧
    (∀ r : PomoResult T, r.successful = false →
      r.value = Except.error ⟨"Cannot access value of failed query."⟩) ∧
    (∀ r : PomoResult T, r.successful = true →
      ∃ v, r = PomoResult.withValue PomoResultCode.SUCCESS v ∧ r.value = Except.ok v) ∧
    (PomoResult.default : PomoResult T).code = PomoResultCode.FAIL ∧
    (PomoResult.default : PomoResult T).value =
      Except.error ⟨"Cannot access value of failed query."⟩ := by
  refine ⟨?_, ?_, ?_, ?_, ?_, ?_, rfl, rfl⟩
  · intro r
    simp [PomoResult.successful]
  · intro code v
    rfl
  · intro code v
    cases code <;> simp [PomoResult.value, PomoResult.successful, PomoResult.code]
  · intro v
    simp [PomoResult.value, PomoResult.successful, PomoResult.code]
  · intro r hr
    cases r with
    | default => rfl
    | withValue code v =>
      cases code <;> simp_all [PomoResult.value, PomoResult.successful, PomoResult.code]
  · intro r hr
    cases r with
    | default => simp [PomoResult.successful, PomoResult.code] at hr
    | withValue code v =>
      cases code <;> simp_all [PomoResult.value, PomoResult.successful, PomoResult.code]

/-- C8, at concrete results over `Int`: a successful result gives its value back, a result
built with `FAIL` and the value 7 raises. -/
theorem PomoResult_access_contract_witness :
    (PomoResult.withValue PomoResultCode.SUCCESS (7 : Int)).value = Except.ok 7 ∧
    (PomoResult.withValue PomoResultCode.FAIL (7 : Int)).value =
      Except.error ⟨"Cannot access value of failed query."⟩ :=
  ⟨by simpa using PomoResult_access_contract.2.2.1 PomoResultCode.SUCCESS (7 : Int),
   PomoResult_access_contract.2.2.2.1 (7 : Int)⟩

/-- C9: `report_warning(m)` records the text `m`, but with level `ERROR`, not `WARNING`:
on every handle and for every message the level read back differs from `WARNING`. The
other two calls do what their names say: after `report_info(m)` the diagnostic is `m` with
level `INFO`, after `report_error(m)` it is `m` with level `ERROR`, whatever was recorded
before. -/
theorem report_warning_records_error (h : PomoLite) (m : String) :
    (h.report_warning m).message = m ∧
    (h.report_warning m).message_type = ReportType.ERROR ∧
    (h.report_warning m).message_type ≠ ReportType.WARNING ∧
    (h.report_info m).message = m ∧ (h.report_info m).message_type = ReportType.INFO ∧
    (h.report_error m).message = m ∧ (h.report_error m).message_type = ReportType.ERROR := by
  refine ⟨rfl, rfl, ?_, rfl, rfl, rfl, rfl⟩
  simp [PomoLite.report_warning, PomoLite.report, PomoLite.message_type]

/-- C3: for every path, if the open succeeds, the version read finds no row and all six
bootstrap statements succeed, then `initialize()` returns `SUCCESS`, the version insert it
executed carries the value text "1" (the decimal text of `CURRENT_VERSION`), and afterwards
`message_type()` is `INFO` and `message()` is still the diagnostic of the open,
`Opened database at "<path>".`. -/
theorem fresh_bootstrap_succeeds (sqlite3_open : String → Int × Connection) (path : String)
    (hopen : (sqlite3_open path).1 = SQLITE_OK)
    (hrow : ((PomoLite.new sqlite3_open path).db_.store
      (PomoLite.new sqlite3_open path).db_.history stm_check_table).rows = [])
    (hok : ∀ k, k < 6 → bootstrap_rc (PomoLite.new sqlite3_open path) k = SQLITE_OK) :
    ( PomoLite.initialize (PomoLite.new sqlite3_open path)).1 = PomoResultCode.SUCCESS ∧
    stm_add_version ∈ ( PomoLite.initialize (PomoLite.new sqlite3_open path)).2.db_.history ∧
    stm_add_version = "INSERT INTO db_info(property, value) VALUES('version', '1');" ∧
    to_string CURRENT_VERSION = "1" ∧
    ( PomoLite.initialize (PomoLite.new sqlite3_open path)).2.message_type = ReportType.INFO ∧
    ( PomoLite.initialize (PomoLite.new sqlite3_open path)).2.message =
      "Opened database at \"" ++ path ++ "\"." := by
  have ho : (PomoLite.new sqlite3_open path).opened_ = true := by
    rw [new_opened _ _ hopen]
  have habs : (PomoLite.version (PomoLite.new sqlite3_open path)).2.version_ = VERSION_FAIL := by
    rw [version_no_row _ ho hrow, new_opened _ _ hopen]
  obtain ⟨hdb, hcode, hrep, -, -⟩ := initialize_absent _ ho habs
  have hnone : (run_rcs (PomoLite.new sqlite3_open path).db_.store
      ((PomoLite.new sqlite3_open path).db_.history ++ [stm_check_table])
      bootstrap_statements).any (fun rc => rc != SQLITE_OK) = false := by
    rw [Bool.eq_false_iff, Ne, bootstrap_rc_fail_iff]
    rintro ⟨k, hk, hx⟩
    exact hx (hok k hk)
  rw [hnone] at hcode
  rw [last_report_no_failure _ _ _ hnone] at hrep
  have hm := congrArg Prod.fst hrep
  have ht := congrArg Prod.snd hrep
  refine ⟨by simpa using hcode, ?_, by decide, by decide,
    ht.trans (by rw [new_opened _ _ hopen]), hm.trans (by rw [new_opened _ _ hopen])⟩
  rw [hdb]
  simp [bootstrap_statements]

/-- C3, on a new `sim_store`: the hypotheses hold and the bootstrap succeeds. -/
theorem fresh_bootstrap_succeeds_witness :
    ( PomoLite.initialize (PomoLite.new sim_open "/tmp/test.db")).1 = PomoResultCode.SUCCESS ∧
    ( PomoLite.initialize (PomoLite.new sim_open "/tmp/test.db")).2.message_type =
      ReportType.INFO ∧
    ( PomoLite.initialize (PomoLite.new sim_open "/tmp/test.db")).2.message =
      "Opened database at \"" ++ "/tmp/test.db" ++ "\"." :=
  have w := fresh_bootstrap_succeeds sim_open "/tmp/test.db" (by decide) (by decide) (by decide)
  ⟨w.1, w.2.2.2.2.1, w.2.2.2.2.2⟩

/-- C4: for every open handle whose version is absent after the query, and whatever code
the store gives to each of the six bootstrap statements, `initialize()` executes all six
after the version query, and returns `FAIL` if and only if at least one of the six got a
code other than `SQLITE_OK`, `SUCCESS` if and only if none did. -/
theorem bootstrap_best_effort (h : PomoLite) (ho : h.opened = true)
    (habs : (PomoLite.version h).2.version_ = VERSION_FAIL) :
    ( PomoLite.initialize h).2.db_.history =
      h.db_.history ++ stm_check_table :: bootstrap_statements ∧
    bootstrap_statements.length = 6 ∧
    (( PomoLite.initialize h).1 = PomoResultCode.FAIL ↔
      ∃ k, k < 6 ∧ bootstrap_rc h k ≠ SQLITE_OK) ∧
    (( PomoLite.initialize h).1 = PomoResultCode.SUCCESS ↔
      ∀ k, k < 6 → bootstrap_rc h k = SQLITE_OK) := by
  obtain ⟨hhist, hfail, hsucc⟩ := bootstrap_outcome h ho habs
  exact ⟨hhist, by decide, hfail, hsucc⟩

/-- C4, on a `legacy_store`, where two of the six statements fail: all six are executed
and the result is `FAIL`. -/
theorem bootstrap_best_effort_witness :
    ( PomoLite.initialize legacy_handle).2.db_.history =
      legacy_handle.db_.history ++ stm_check_table :: bootstrap_statements ∧
    ( PomoLite.initialize legacy_handle).1 = PomoResultCode.FAIL :=
  have w := bootstrap_best_effort legacy_handle (by decide) (by decide)
  ⟨w.1, w.2.2.1.mpr ⟨0, by decide, by decide⟩⟩

/-- C5: for every open handle whose version is absent after the query, the statements
`initialize()` sends to the store are the version query followed by, in this order,
`CREATE TABLE` for `db_info`, `activity_type`, `user`, `session` (each with its column
text, `session` after the two tables it references), the insert of `('version', '1')`
into `db_info`, and the insert of the three activity rows into `activity_type`; nothing
else is sent. -/
theorem bootstrap_statement_sequence (h : PomoLite) (ho : h.opened = true)
    (habs : (PomoLite.version h).2.version_ = VERSION_FAIL) :
    ( PomoLite.initialize h).2.db_.history = h.db_.history ++
      [ "SELECT value FROM db_info WHERE property = 'version'",
        "CREATE TABLE db_info(property TEXT NOT NULL UNIQUE PRIMARY KEY,value TEXT NOT NULL);",
        "CREATE TABLE activity_type(id INTEGER NOT NULL PRIMARY KEY ASC AUTOINCREMENT,short_name TEXT NOT NULL UNIQUE,full_name TEXT NOT NULL,description TEXT);",
        "CREATE TABLE user(id INTEGER NOT NULL PRIMARY KEY ASC AUTOINCREMENT,full_name TEXT NOT NULL UNIQUE);",
        "CREATE TABLE session(id INTEGER NOT NULL PRIMARY KEY ASC AUTOINCREMENT,user_id INTEGER NOT NULL,activity_type_id INTEGER NOT NULL,start_time DATETIME NOT NULL,end_time DATETIME NOT NULL,rating INTEGER,FOREIGN KEY(user_id) REFERENCES user(id),FOREIGN KEY(activity_type_id) REFERENCES activity_type(id));",
        "INSERT INTO db_info(property, value) VALUES('version', '1');",
        "INSERT INTO activity_type(short_name, full_name, description) VALUES('work', 'Pomodoro', 'Productive work'),('short_break', 'Short Break', 'Short break between working bursts'),('long_break', 'Long Break', 'Take a breather!');" ] ∧
    tables.map (fun table => stm_create_info_table table) =
      [ "CREATE TABLE " ++ TABLE_INFO ++ "(" ++ COLS_INFO ++ ");",
        "CREATE TABLE " ++ TABLE_ACTIVITY_TYPE ++ "(" ++ COLS_ACTIVITY_TYPE ++ ");",
        "CREATE TABLE " ++ TABLE_USER ++ "(" ++ COLS_USER ++ ");",
        "CREATE TABLE " ++ TABLE_SESSION ++ "(" ++ COLS_SESSION ++ ");" ] := by
  obtain ⟨hdb, -, -, -, -⟩ := initialize_absent h ho habs
  refine ⟨?_, rfl⟩
  rw [hdb]
  refine congrArg (fun l => h.db_.history ++ l) ?_
  decide

/-- C5, on a new `sim_store`, whose connection has executed nothing before. -/
theorem bootstrap_statement_sequence_witness :
    ( PomoLite.initialize sim_handle).2.db_.history = sim_handle.db_.history ++
      [ "SELECT value FROM db_info WHERE property = 'version'",
        "CREATE TABLE db_info(property TEXT NOT NULL UNIQUE PRIMARY KEY,value TEXT NOT NULL);",
        "CREATE TABLE activity_type(id INTEGER NOT NULL PRIMARY KEY ASC AUTOINCREMENT,short_name TEXT NOT NULL UNIQUE,full_name TEXT NOT NULL,description TEXT);",
        "CREATE TABLE user(id INTEGER NOT NULL PRIMARY KEY ASC AUTOINCREMENT,full_name TEXT NOT NULL UNIQUE);",
        "CREATE TABLE session(id INTEGER NOT NULL PRIMARY KEY ASC AUTOINCREMENT,user_id INTEGER NOT NULL,activity_type_id INTEGER NOT NULL,start_time DATETIME NOT NULL,end_time DATETIME NOT NULL,rating INTEGER,FOREIGN KEY(user_id) REFERENCES user(id),FOREIGN KEY(activity_type_id) REFERENCES activity_type(id));",
        "INSERT INTO db_info(property, value) VALUES('version', '1');",
        "INSERT INTO activity_type(short_name, full_name, description) VALUES('work', 'Pomodoro', 'Productive work'),('short_break', 'Short Break', 'Short break between working bursts'),('long_break', 'Long Break', 'Take a breather!');" ] :=
  (bootstrap_statement_sequence sim_handle (by decide) (by decide)).1

/-- C7: for every handle whose open failed, `initialize()` returns `FAIL` and `version()`
returns a failed result; neither executes anything on the connection nor changes the
cached version or the stored return code; after `initialize()` the diagnostic is
"No database opened." with level `ERROR`. And every failed open leaves such a handle:
`opened()` is false and `message_type()` is `ERROR` after construction. -/
theorem closed_handle_short_circuits (h : PomoLite) (hclosed : h.opened = false) :
    ( PomoLite.initialize h).1 = PomoResultCode.FAIL ∧
    ( PomoLite.initialize h).2.db_ = h.db_ ∧
    ( PomoLite.initialize h).2.version_ = h.version_ ∧
    ( PomoLite.initialize h).2.rc_ = h.rc_ ∧
    ( PomoLite.initialize h).2.opened = false ∧
    ( PomoLite.initialize h).2.message = "No database opened." ∧
    ( PomoLite.initialize h).2.message_type = ReportType.ERROR ∧
    (PomoLite.version h).1.successful = false ∧
    (PomoLite.version h).1.code = PomoResultCode.FAIL ∧
    (PomoLite.version h).2 = h ∧
    (∀ (sqlite3_open : String → Int × Connection) (path : String),
      (sqlite3_open path).1 ≠ SQLITE_OK →
        (PomoLite.new sqlite3_open path).opened = false ∧
        (PomoLite.new sqlite3_open path).message_type = ReportType.ERROR) := by
  have hc : h.opened_ = false := hclosed
  have hi : PomoLite.initialize h =
      (PomoResultCode.FAIL, h.report_error "No database opened.") := by
    simp [ PomoLite.initialize, hc]
  have hv : PomoLite.version h = (PomoResult.default, h) := by
    simp [PomoLite.version, hc]
  rw [hi, hv]
  refine ⟨rfl, rfl, rfl, rfl, hc, rfl, rfl, rfl, rfl, rfl, ?_⟩
  intro sqlite3_open path hfail
  rw [new_failed _ _ hfail]
  exact ⟨rfl, rfl⟩

/-- C7, on the handle of a failed open. -/
theorem closed_handle_short_circuits_witness :
    (PomoLite.new failing_open "/tmp/test.db").opened = false ∧
    ( PomoLite.initialize (PomoLite.new failing_open "/tmp/test.db")).1 = PomoResultCode.FAIL ∧
    ( PomoLite.initialize (PomoLite.new failing_open "/tmp/test.db")).2.db_.history = [] ∧
    ( PomoLite.initialize (PomoLite.new failing_open "/tmp/test.db")).2.message =
      "No database opened." :=
  have w := closed_handle_short_circuits (PomoLite.new failing_open "/tmp/test.db") (by decide)
  ⟨by decide, w.1, by rw [w.2.1]; rfl, w.2.2.2.2.2.1⟩

/-- C6 as stated fails: on a `legacy_store` the statement `CREATE TABLE db_info` fails and
the other three `CREATE TABLE` succeed, the version insert fails too, and the message read
after `initialize()` is "Failed to set version number.", which does not contain
`db_info`. -/
theorem create_failure_diagnostic_counterexample :
    legacy_handle.opened = true ∧
    (PomoLite.version legacy_handle).2.version_ = VERSION_FAIL ∧
    (∀ k, k < 4 → (bootstrap_rc legacy_handle k ≠ SQLITE_OK ↔
      tables[k]? = some (TABLE_INFO, COLS_INFO))) ∧
    ( PomoLite.initialize legacy_handle).1 = PomoResultCode.FAIL ∧
    ( PomoLite.initialize legacy_handle).2.message = "Failed to set version number." ∧
    ¬ contains_text ( PomoLite.initialize legacy_handle).2.message TABLE_INFO := by
  refine ⟨by decide, by decide, by decide, by decide, by decide, ?_⟩
  unfold contains_text
  decide

/-- C6, amended: for every open handle whose version is absent after the query and every
table `t` of `db_info`, `activity_type`, `user`, `session`, if the `CREATE TABLE` for `t`
fails and the other three succeed, then, whatever the outcome of the two seed inserts,
`initialize()` returns `FAIL` and `message_type()` is `ERROR`; `message()` is the text of
the last failure: "Failed to add default activities." when that insert fails, else
"Failed to set version number." when the version insert fails, else
`Creation of table "<t>" failed.`, which contains the name `t`. -/
theorem create_failure_diagnostic (h : PomoLite) (ho : h.opened = true)
    (habs : (PomoLite.version h).2.version_ = VERSION_FAIL)
    (t : String × String) (ht : t ∈ tables)
    (hfail : ∀ k, k < 4 → (bootstrap_rc h k ≠ SQLITE_OK ↔ tables[k]? = some t)) :
    ( PomoLite.initialize h).1 = PomoResultCode.FAIL ∧
    ( PomoLite.initialize h).2.message_type = ReportType.ERROR ∧
    ( PomoLite.initialize h).2.message =
      (if bootstrap_rc h 5 ≠ SQLITE_OK then "Failed to add default activities."
       else if bootstrap_rc h 4 ≠ SQLITE_OK then "Failed to set version number."
       else "Creation of table \"" ++ t.1 ++ "\" failed.") ∧
    (bootstrap_rc h 4 = SQLITE_OK → bootstrap_rc h 5 = SQLITE_OK →
      contains_text ( PomoLite.initialize h).2.message t.1) := by
  obtain ⟨i, hget⟩ := List.mem_iff_getElem?.mp ht
  have hi : i < 4 := by
    obtain ⟨hlt, -⟩ := List.getElem?_eq_some.mp hget
    exact hlt
  have hinj : ∀ j, j < 4 → ∀ k, k < 4 → tables[j]? = tables[k]? → j = k := by decide
  have hidx : ∀ k, k < 4 → (bootstrap_rc h k ≠ SQLITE_OK ↔ k = i) := by
    intro k hk
    rw [hfail k hk]
    constructor
    · intro hk2
      exact hinj k hk i hi (hk2.trans hget.symm)
    · rintro rfl
      exact hget
  have hname : tables.getD i ("", "") = t := by
    rw [List.getD_eq_getElem?_getD, hget]
    rfl
  obtain ⟨hcode, htype, hmsg⟩ := create_failure_report h ho habs i hi hidx
  rw [hname] at hmsg
  refine ⟨hcode, htype, hmsg, ?_⟩
  intro h4 h5
  have hm : ( PomoLite.initialize h).2.message = "Creation of table \"" ++ t.1 ++ "\" failed." := by
    rw [show ( PomoLite.initialize h).2.message = ( PomoLite.initialize h).2.message_ from rfl,
      hmsg, if_neg (not_not.mpr h5), if_neg (not_not.mpr h4)]
  rw [hm]
  exact contains_table_name t.1

/-- C6, amended, on a `user_only_store`: only `CREATE TABLE user` fails, and the message
names `user`. -/
theorem create_failure_diagnostic_witness :
    ( PomoLite.initialize user_only_handle).1 = PomoResultCode.FAIL ∧
    ( PomoLite.initialize user_only_handle).2.message_type = ReportType.ERROR ∧
    ( PomoLite.initialize user_only_handle).2.message = "Creation of table \"user\" failed." ∧
    contains_text ( PomoLite.initialize user_only_handle).2.message "user" :=
  have w := create_failure_diagnostic user_only_handle (by decide) (by decide)
    (TABLE_USER, COLS_USER) (by decide) (by decide)
  ⟨w.1, w.2.1, by decide, w.2.2.2 (by decide) (by decide)⟩

/-- C1: the second `initialize()` repeats the bootstrap. For every open handle whose cached
version is `VERSION_FAIL` (the value the constructor gives it), if the version query
yields one row with the single column `value`, whatever its text, then `initialize()`
sends the version query and then all six bootstrap statements again, and returns `FAIL`
exactly when one of them is rejected. -/
theorem initialize_repeats_bootstrap (h : PomoLite) (ho : h.opened = true)
    (hv : h.version_ = VERSION_FAIL) (v : String) (rc : Int)
    (hrow : h.db_.store h.db_.history stm_check_table = ⟨[[("value", v)]], rc⟩) :
    ( PomoLite.initialize h).2.db_.history =
      h.db_.history ++ stm_check_table :: bootstrap_statements ∧
    (( PomoLite.initialize h).1 = PomoResultCode.FAIL ↔
      ∃ k, k < 6 ∧ bootstrap_rc h k ≠ SQLITE_OK) := by
  have habs : (PomoLite.version h).2.version_ = VERSION_FAIL := by
    rw [(version_value_row h ho v rc hrow).1, hv]
  obtain ⟨hhist, hfail, -⟩ := bootstrap_outcome h ho habs
  exact ⟨hhist, hfail⟩

/-- C1, on a new `sim_store`: the first `initialize()` returns `SUCCESS`; the version query
then yields the row with column `value` holding "1"; the second `initialize()` on the same
handle sends the six bootstrap statements again and returns `FAIL`. -/
theorem initialize_repeats_bootstrap_witness :
    ( PomoLite.initialize sim_handle).1 = PomoResultCode.SUCCESS ∧
    ( PomoLite.initialize sim_handle).2.db_.store ( PomoLite.initialize sim_handle).2.db_.history
      stm_check_table = ⟨[[("value", "1")]], SQLITE_OK⟩ ∧
    ( PomoLite.initialize ( PomoLite.initialize sim_handle).2).2.db_.history =
      ( PomoLite.initialize sim_handle).2.db_.history ++ stm_check_table :: bootstrap_statements ∧
    ( PomoLite.initialize ( PomoLite.initialize sim_handle).2).1 = PomoResultCode.FAIL :=
  have w := initialize_repeats_bootstrap ( PomoLite.initialize sim_handle).2 (by decide)
    (by decide) "1" SQLITE_OK (by decide)
  ⟨by decide, by decide, w.1, w.2.mpr ⟨0, by decide, by decide⟩⟩

/-- C2: `version()` does not return the stored version. For every open handle whose cached
version is `VERSION_FAIL` (the value the constructor gives it) and every integer
`n`, if the version query yields the row with the single column `value` holding the
decimal text of `n`, then `version()` returns a failed result, not the successful result
with value `n`, and the cached version stays `VERSION_FAIL`. -/
theorem version_misses_stored_value (h : PomoLite) (ho : h.opened = true)
    (hv : h.version_ = VERSION_FAIL) (n : Int) (rc : Int)
    (hrow : h.db_.store h.db_.history stm_check_table = ⟨[[("value", to_string n)]], rc⟩) :
    (PomoLite.version h).1 = PomoResult.default ∧
    (PomoLite.version h).1.successful = false ∧
    (PomoLite.version h).1 ≠ PomoResult.withValue PomoResultCode.SUCCESS n ∧
    (PomoLite.version h).2.version_ = VERSION_FAIL := by
  have habs : (PomoLite.version h).2.version_ = VERSION_FAIL := by
    rw [(version_value_row h ho _ rc hrow).1, hv]
  have hres : (PomoLite.version h).1 = PomoResult.default := by
    have hx := habs
    rw [version_opened h ho] at hx ⊢
    simp only at hx
    simp only [hx, if_true]
  rw [hres]
  exact ⟨rfl, rfl, by simp, habs⟩

/-- C2, on a store that records version 1: `version()` on the new handle fails. -/
theorem version_misses_stored_value_witness :
    (versioned_handle 1).db_.store (versioned_handle 1).db_.history stm_check_table =
      ⟨[[("value", "1")]], SQLITE_OK⟩ ∧
    (PomoLite.version (versioned_handle 1)).1 = PomoResult.default ∧
    (PomoLite.version (versioned_handle 1)).1 ≠ PomoResult.withValue PomoResultCode.SUCCESS 1 :=
  have w := version_misses_stored_value (versioned_handle 1) (by decide) (by decide) 1
    SQLITE_OK (by decide)
  ⟨by decide, w.1, w.2.2.1⟩

end PomoQt
